import Mathlib

/-!
# Verification of the KSEB dashboard controller

A shallow embedding of the pure logic of `src/components/ksebl-dashboard.tsx`:
the line registry, the notification log, the report aggregator, the CSV
serializer, the status controller (`updateLineStatus`, `simulateFault`,
`toggleLineVisibility`) and the clear-all operation.

Modelling conventions:
* The TS string union `"Healthy" | "Fault" | "Shutoff"` becomes the inductive
  `LineStatus`; `statusStr` recovers the literal strings where the code uses
  them in messages and CSV cells.
* Geographic coordinates (decimal degrees with three decimals in the source)
  are represented exactly as integers in thousandths of a degree; no claim
  computes with their values.
* `Math.random()` / `Date.now()` are modelled by an explicit `Env` record (the
  fresh notification id and timestamp) and, for `simulateFault`, an arbitrary
  natural number `k` reduced modulo the candidate count, matching
  `candidates[Math.floor(Math.random() * candidates.length)]`.
* The JS `Set` held in `hiddenLinesRef`, the keys of `layersRef`, and the set
  of layers currently attached to the map are modelled as `Finset String`.
* `toFixed(1)` on the non-negative uptime value is modelled exactly: the value
  in tenths, rounded to the nearest integer with ties rounded up.
-/

/-- The TS union type `"Healthy" | "Fault" | "Shutoff"`. -/
inductive LineStatus where
  | Healthy
  | Fault
  | Shutoff
deriving DecidableEq

/-- The literal string the TS code stores for each status. -/
def statusStr : LineStatus → String
  | .Healthy => "Healthy"
  | .Fault => "Fault"
  | .Shutoff => "Shutoff"

/-- `type LTLine = { id: string; name: string; coords: [number, number][]; status: LineStatus }`. -/
structure LTLine where
  id : String
  name : String
  coords : List (Int × Int)
  status : LineStatus
deriving DecidableEq

/-- `type NotificationItem = { id: string; ts: number; lineId: string; message: string; status: LineStatus }`. -/
structure NotificationItem where
  id : String
  ts : Nat
  lineId : String
  message : String
  status : LineStatus
deriving DecidableEq

/-- The nondeterministic inputs of `addNotification`: the composite id
`` `${now()}-${Math.random()}` `` and the timestamp `now()`. -/
structure Env where
  nid : String
  ts : Nat
deriving DecidableEq

/-- First seed line (`lt-1`); coordinates in thousandths of a degree. -/
def line1 : LTLine :=
  { id := "lt-1", name := "LT Line - Trivandrum North",
    coords := [(8508, 76956), (8545, 76980), (8580, 76990)],
    status := .Healthy }

/-- Second seed line (`lt-2`); coordinates in thousandths of a degree. -/
def line2 : LTLine :=
  { id := "lt-2", name := "LT Line - Kochi Coastal",
    coords := [(9940, 76270), (9970, 76310), (10020, 76320), (10060, 76340)],
    status := .Healthy }

/-- Third seed line (`lt-3`); coordinates in thousandths of a degree. -/
def line3 : LTLine :=
  { id := "lt-3", name := "LT Line - Kozhikode Rural",
    coords := [(11240, 75770), (11280, 75800), (11310, 75830)],
    status := .Shutoff }

/-- The fixed seed set `initialLines`. -/
def initialLines : List LTLine := [line1, line2, line3]

/-- The mutable state owned by the dashboard component: the `lines` and
`notifications` React states, whether the Leaflet map object exists
(`mapRef.current`), the set of line ids with created layers (the keys of
`layersRef.current`), the set of line ids whose layers are attached to the
map, and the hidden-line set (`hiddenLinesRef.current`). -/
structure DashState where
  lines : List LTLine
  notifications : List NotificationItem
  mapReady : Bool
  layers : Finset String
  attached : Finset String
  hidden : Finset String
deriving DecidableEq

/-- The notification record built inside `addNotification`. -/
def mkItem (env : Env) (lineId message : String) (status : LineStatus) : NotificationItem :=
  { id := env.nid, ts := env.ts, lineId := lineId, message := message, status := status }

/-- `addNotification(lineId, message, status)`: prepend the new item and
`slice(0, 20)`. -/
def addNotification (env : Env) (lineId message : String) (status : LineStatus)
    (st : DashState) : DashState :=
  { st with notifications := (mkItem env lineId message status :: st.notifications).take 20 }

/-- `updateLineStatus(lineId, status)`: look up the display name (falling back
to `"Line"`), map the status onto every line whose id matches, and append one
notification describing the transition. -/
def updateLineStatus (env : Env) (lineId : String) (status : LineStatus)
    (st : DashState) : DashState :=
  let lineName := ((st.lines.find? (fun l => l.id = lineId)).map LTLine.name).getD "Line"
  let st1 : DashState :=
    { st with lines := st.lines.map (fun l => if l.id = lineId then { l with status := status } else l) }
  addNotification env lineId (lineName ++ " status changed to " ++ statusStr status) status st1

/-- `toggleLineVisibility(lineId, visible)`: a no-op unless the map exists and
the line has created layers; otherwise update the hidden set and attach or
detach the layers. -/
def toggleLineVisibility (lineId : String) (visible : Bool) (st : DashState) : DashState :=
  if ¬st.mapReady ∨ lineId ∉ st.layers then st
  else if visible then
    { st with hidden := st.hidden.erase lineId,
              attached := insert lineId st.attached }
  else
    { st with hidden := insert lineId st.hidden,
              attached := st.attached.erase lineId }

/-- `simulateFault()`: filter the non-Fault lines, index by the random draw,
and apply `updateLineStatus(pick.id, "Fault")` when the pick is defined. -/
def simulateFault (env : Env) (k : Nat) (st : DashState) : DashState :=
  let candidates := st.lines.filter (fun l => l.status ≠ LineStatus.Fault)
  match candidates[k % candidates.length]? with
  | some pick => updateLineStatus env pick.id LineStatus.Fault st
  | none => st

/-- The `Clear All` button: `setNotifications([])`. -/
def clearNotifications (st : DashState) : DashState :=
  { st with notifications := [] }

/-- The `report` record derived by `useMemo`. `uptimeTenths` holds the
displayed uptime percentage in tenths of a percent. -/
structure Report where
  healthy : Nat
  fault : Nat
  shutoff : Nat
  total : Nat
  uptimeTenths : Nat
deriving DecidableEq

/-- One step of the counting loop `for (const l of lines) counts[l.status]++`:
increment the component of the status of `l`. -/
def statusStep (c : Nat × Nat × Nat) (l : LTLine) : Nat × Nat × Nat :=
  match l.status with
  | .Healthy => (c.1 + 1, c.2.1, c.2.2)
  | .Fault => (c.1, c.2.1 + 1, c.2.2)
  | .Shutoff => (c.1, c.2.1, c.2.2 + 1)

/-- The counting loop as a fold producing `(Healthy, Fault, Shutoff)` counts. -/
def statusCounts (lines : List LTLine) : Nat × Nat × Nat :=
  lines.foldl statusStep (0, 0, 0)

/-- `((h * 99.5 + f * 70) / total).toFixed(1)` in exact arithmetic: the value
in tenths of a percent, rounded to the nearest integer, ties up. The numerator
`h * 995 + f * 700` is ten times the percentage numerator. -/
def uptimeTenths (h f total : Nat) : Nat :=
  (2 * (h * 995 + f * 700) + total) / (2 * total)

/-- The `report` memo: per-status counts, `total = lines.length || 1`, and the
uptime estimate. -/
def mkReport (lines : List LTLine) : Report :=
  let c := statusCounts lines
  let total := if lines.length = 0 then 1 else lines.length
  { healthy := c.1, fault := c.2.1, shutoff := c.2.2, total := total,
    uptimeTenths := uptimeTenths c.1 c.2.1 total }

/-- The uptime string as displayed: `{report.uptime}%` with `toFixed(1)`
always printing one decimal digit. -/
def uptimeDisplay (r : Report) : String :=
  toString (r.uptimeTenths / 10) ++ "." ++ toString (r.uptimeTenths % 10) ++ "%"

/-- Modelled from the spec: the uptime estimate
`(Healthy_count * 99.5 + Fault_count * 70) / total_lines`, rounded to one
decimal, in tenths of a percent; `Shutoff` lines contribute 0 to the
numerator. -/
def specUptimeTenths (lines : List LTLine) : Nat :=
  let h := lines.countP (fun l => l.status = LineStatus.Healthy)
  let f := lines.countP (fun l => l.status = LineStatus.Fault)
  (2 * (h * 995 + f * 700) + lines.length) / (2 * lines.length)

/-- `` `"${c}"` ``: wrap a CSV cell in double quotes. -/
def quoteField (c : String) : String := "\"" ++ c ++ "\""

/-- `[headers, ...rows].map((r) => r.map((c) => `"${c}"`).join(","))`. -/
def csvRowStrings (lines : List LTLine) : List String :=
  ((["Line ID", "Name", "Status"]) :: lines.map (fun l => [l.id, l.name, statusStr l.status])).map
    (fun r => String.intercalate "," (r.map quoteField))

/-- The full CSV text: the quoted rows joined by `"\n"`. -/
def csvOfLines (lines : List LTLine) : String :=
  String.intercalate "\n" (csvRowStrings lines)

/-- The arguments of one `addNotification` call, for reasoning about call
sequences. -/
structure NotifEvent where
  env : Env
  lineId : String
  message : String
  status : LineStatus
deriving DecidableEq

/-- Apply one recorded `addNotification` call. -/
def addNotificationEv (e : NotifEvent) (st : DashState) : DashState :=
  addNotification e.env e.lineId e.message e.status st

/-- A fixed environment for concrete instantiations. -/
def env0 : Env := { nid := "0-0", ts := 0 }

/-- The third seed line flipped to `Fault`, for concrete instantiations. -/
def lineF : LTLine := { line3 with status := .Fault }

/-- The component state right after mount: seed lines, empty log, no map. -/
def st0 : DashState :=
  { lines := initialLines, notifications := [], mapReady := false,
    layers := ∅, attached := ∅, hidden := ∅ }

/-- A concrete `addNotification` call record. -/
def ev0 : NotifEvent := { env := env0, lineId := "lt-1", message := "test", status := .Fault }

/-- A concrete notification item. -/
def item0 : NotificationItem := mkItem env0 "lt-1" "old" .Healthy

/-- A state whose notification log is at the 20-entry cap. -/
def stFull : DashState := { st0 with notifications := List.replicate 20 item0 }

/-- A state in which every line is already in `Fault` status. -/
def stAllFault : DashState := { st0 with lines := [lineF, { line1 with status := .Fault }] }

/-- A state in which the map is ready and line `lt-1` has created, attached
layers. -/
def stLayered : DashState :=
  { st0 with mapReady := true, layers := {"lt-1"}, attached := {"lt-1"} }

/-! ## Helper lemmas -/

theorem updateLineStatus_lines (env : Env) (lineId : String) (s : LineStatus)
    (st : DashState) :
    (updateLineStatus env lineId s st).lines
      = st.lines.map (fun l => if l.id = lineId then { l with status := s } else l) := rfl

theorem statusCounts_go (lines : List LTLine) :
    ∀ a b c : Nat,
      lines.foldl statusStep (a, b, c)
        = (a + lines.countP (fun l => l.status = LineStatus.Healthy),
           b + lines.countP (fun l => l.status = LineStatus.Fault),
           c + lines.countP (fun l => l.status = LineStatus.Shutoff)) := by
  induction lines with
  | nil => simp
  | cons x xs ih =>
      intro a b c
      cases hx : x.status <;>
        simp [statusStep, hx, List.countP_cons, ih] <;> omega

theorem statusCounts_eq (lines : List LTLine) :
    statusCounts lines
      = (lines.countP (fun l => l.status = LineStatus.Healthy),
         lines.countP (fun l => l.status = LineStatus.Fault),
         lines.countP (fun l => l.status = LineStatus.Shutoff)) := by
  simpa using statusCounts_go lines 0 0 0

theorem countP_status_sum (lines : List LTLine) :
    lines.countP (fun l => l.status = LineStatus.Healthy)
      + lines.countP (fun l => l.status = LineStatus.Fault)
      + lines.countP (fun l => l.status = LineStatus.Shutoff) = lines.length := by
  induction lines with
  | nil => rfl
  | cons x xs ih => cases hx : x.status <;> simp [List.countP_cons, hx] <;> omega

/-! ## Claim theorems -/

/-- C1: for every line list the report uptime estimate equals
`(Healthy_count * 99.5 + Fault_count * 70) / total_lines` rounded to one
decimal (stated in tenths of a percent, with a nonzero denominator), and any
list with 2 Healthy, 1 Fault and 0 Shutoff lines displays `89.7%`. -/
theorem report_uptime_spec :
    (∀ lines : List LTLine, lines ≠ [] →
      (mkReport lines).uptimeTenths = specUptimeTenths lines)
  ∧ (∀ lines : List LTLine,
      lines.countP (fun l => l.status = LineStatus.Healthy) = 2 →
      lines.countP (fun l => l.status = LineStatus.Fault) = 1 →
      lines.countP (fun l => l.status = LineStatus.Shutoff) = 0 →
      uptimeDisplay (mkReport lines) = "89.7%") := by
  constructor
  · intro lines hne
    have hlen : lines.length ≠ 0 := by simpa [List.length_eq_zero] using hne
    simp [mkReport, specUptimeTenths, statusCounts_eq, uptimeTenths, hlen]
  · intro lines h1 h2 h3
    have hsum := countP_status_sum lines
    rw [h1, h2, h3] at hsum
    have hlen : lines.length = 3 := by omega
    have h897 : (mkReport lines).uptimeTenths = 897 := by
      have hb : (mkReport lines).uptimeTenths = uptimeTenths 2 1 3 := by
        simp [mkReport, statusCounts_eq, h1, h2, hlen]
      rw [hb]
      simp [uptimeTenths]
    unfold uptimeDisplay
    rw [h897]
    decide

/-- C1 witness: the formula and the displayed value at the concrete list with
two Healthy lines and one Fault line. -/
theorem report_uptime_spec_witness :
    ([line1, line2, lineF] ≠ ([] : List LTLine)
      ∧ (mkReport [line1, line2, lineF]).uptimeTenths = specUptimeTenths [line1, line2, lineF])
  ∧ ([line1, line2, lineF].countP (fun l => l.status = LineStatus.Healthy) = 2
      ∧ uptimeDisplay (mkReport [line1, line2, lineF]) = "89.7%") :=
  ⟨⟨by decide, report_uptime_spec.1 [line1, line2, lineF] (by decide)⟩,
   ⟨by decide,
    report_uptime_spec.2 [line1, line2, lineF] (by decide) (by decide) (by decide)⟩⟩

/-- C6 counterexample: on the empty line list the per-status counts sum to 0
while the report total is `[].length || 1 = 1`. -/
theorem report_counts_empty_counterexample :
    ¬((mkReport []).healthy + (mkReport []).fault + (mkReport []).shutoff
        = (mkReport []).total) := by decide

/-- C6 (amended): for every nonempty line list, the report per-status counts
sum to the report total line count. -/
theorem report_counts_sum_total (lines : List LTLine) (h : lines ≠ []) :
    (mkReport lines).healthy + (mkReport lines).fault + (mkReport lines).shutoff
      = (mkReport lines).total := by
  have hlen : lines.length ≠ 0 := by simpa [List.length_eq_zero] using h
  simp [mkReport, statusCounts_eq, hlen, countP_status_sum]

/-- C6 witness: the amended count identity at the seed set. -/
theorem report_counts_sum_total_witness :
    initialLines ≠ []
      ∧ (mkReport initialLines).healthy + (mkReport initialLines).fault
          + (mkReport initialLines).shutoff = (mkReport initialLines).total :=
  ⟨by decide, report_counts_sum_total initialLines (by decide)⟩

/-- C8: the clear-all operation empties the notification log from any prior
state. -/
theorem clear_notifications_empties (st : DashState) :
    (clearNotifications st).notifications = [] := rfl

/-- When the candidate list (the non-Fault lines) is nonempty, `simulateFault`
performs `updateLineStatus` on the indexed candidate. -/
theorem simulateFault_eq_pick (env : Env) (k : Nat) (st : DashState)
    (h : st.lines.filter (fun l => l.status ≠ LineStatus.Fault) ≠ []) :
    ∃ hlt : k % (st.lines.filter (fun l => l.status ≠ LineStatus.Fault)).length
          < (st.lines.filter (fun l => l.status ≠ LineStatus.Fault)).length,
      simulateFault env k st
        = updateLineStatus env
            ((st.lines.filter (fun l => l.status ≠ LineStatus.Fault)).get
              ⟨k % (st.lines.filter (fun l => l.status ≠ LineStatus.Fault)).length, hlt⟩).id
            LineStatus.Fault st := by
  have hlen : 0 < (st.lines.filter (fun l => l.status ≠ LineStatus.Fault)).length :=
    List.length_pos.mpr h
  have hlt : k % (st.lines.filter (fun l => l.status ≠ LineStatus.Fault)).length
      < (st.lines.filter (fun l => l.status ≠ LineStatus.Fault)).length :=
    Nat.mod_lt _ hlen
  refine ⟨hlt, ?_⟩
  dsimp only [simulateFault]
  rw [List.getElem?_eq_getElem hlt]
  rfl

/-- C2: when at least one non-Fault line exists, `simulateFault` applies
`setStatus(·, Fault)` to a selected line that is in the registry and is not
already in `Fault` status (the appended notification references that line);
and when every line is already `Fault` it leaves the whole state (lines and
notifications) untouched. -/
theorem simulateFault_never_refaults (env : Env) (k : Nat) (st : DashState) :
    ((∃ l ∈ st.lines, l.status ≠ LineStatus.Fault) →
      ∃ pick : LTLine, pick ∈ st.lines ∧ pick.status ≠ LineStatus.Fault
        ∧ simulateFault env k st = updateLineStatus env pick.id LineStatus.Fault st
        ∧ (simulateFault env k st).notifications.head?.map NotificationItem.lineId
            = some pick.id)
  ∧ ((∀ l ∈ st.lines, l.status = LineStatus.Fault) → simulateFault env k st = st) := by
  constructor
  · rintro ⟨w, hw, hwF⟩
    have hne : st.lines.filter (fun l => l.status ≠ LineStatus.Fault) ≠ [] :=
      List.ne_nil_of_mem (List.mem_filter.mpr ⟨hw, by simpa using hwF⟩)
    obtain ⟨hlt, heq⟩ := simulateFault_eq_pick env k st hne
    have hpm : (st.lines.filter (fun l => l.status ≠ LineStatus.Fault)).get
        ⟨k % (st.lines.filter (fun l => l.status ≠ LineStatus.Fault)).length, hlt⟩
        ∈ st.lines.filter (fun l => l.status ≠ LineStatus.Fault) :=
      List.get_mem _ _ _
    refine ⟨_, (List.mem_filter.mp hpm).1, ?_, heq, ?_⟩
    · simpa using (List.mem_filter.mp hpm).2
    · rw [heq]
      rfl
  · intro hall
    have hfil : st.lines.filter (fun l => l.status ≠ LineStatus.Fault) = [] := by
      simp only [List.filter_eq_nil_iff]
      intro a ha
      simp [hall a ha]
    dsimp only [simulateFault]
    rw [hfil]
    rfl

/-- C2 witness: on the seed state (all lines non-Fault) the draw `k = 7`
selects an eligible line, and on a state whose two lines are both `Fault`,
`simulateFault` is the identity. -/
theorem simulateFault_never_refaults_witness :
    ((∃ l ∈ st0.lines, l.status ≠ LineStatus.Fault)
      ∧ ∃ pick : LTLine, pick ∈ st0.lines ∧ pick.status ≠ LineStatus.Fault
          ∧ simulateFault env0 7 st0 = updateLineStatus env0 pick.id LineStatus.Fault st0
          ∧ (simulateFault env0 7 st0).notifications.head?.map NotificationItem.lineId
              = some pick.id)
  ∧ ((∀ l ∈ stAllFault.lines, l.status = LineStatus.Fault)
      ∧ simulateFault env0 7 stAllFault = stAllFault) :=
  ⟨⟨by decide, (simulateFault_never_refaults env0 7 st0).1 (by decide)⟩,
   ⟨by decide, (simulateFault_never_refaults env0 7 stAllFault).2 (by decide)⟩⟩

/-- C3: starting from a log of length at most 20, any sequence of
`addNotification` calls keeps the length at most 20; each call puts the new
item first; and a call on a full log evicts exactly the last (oldest) entry. -/
theorem notification_log_bounded (evs : List NotifEvent) (e : NotifEvent)
    (st st20 : DashState) (h : st.notifications.length ≤ 20)
    (h20 : st20.notifications.length = 20) :
    (evs.foldl (fun s ev => addNotificationEv ev s) st).notifications.length ≤ 20
  ∧ (addNotificationEv e st).notifications.head?
      = some (mkItem e.env e.lineId e.message e.status)
  ∧ (addNotificationEv e st20).notifications
      = mkItem e.env e.lineId e.message e.status :: st20.notifications.dropLast := by
  refine ⟨?_, ?_, ?_⟩
  · induction evs generalizing st with
    | nil => simpa using h
    | cons ev evs ih =>
        rw [List.foldl_cons]
        apply ih
        simp only [addNotificationEv, addNotification, List.length_take]
        omega
  · rfl
  · show (mkItem e.env e.lineId e.message e.status :: st20.notifications).take 20
        = mkItem e.env e.lineId e.message e.status :: st20.notifications.dropLast
    rw [List.take_succ_cons, List.dropLast_eq_take, h20]

/-- C3 witness: one call on the empty log and one call on a full 20-entry log. -/
theorem notification_log_bounded_witness :
    st0.notifications.length ≤ 20 ∧ stFull.notifications.length = 20
      ∧ ([ev0].foldl (fun s ev => addNotificationEv ev s) st0).notifications.length ≤ 20
      ∧ (addNotificationEv ev0 stFull).notifications
          = mkItem ev0.env ev0.lineId ev0.message ev0.status :: stFull.notifications.dropLast :=
  ⟨by decide, by decide,
   (notification_log_bounded [ev0] ev0 st0 stFull (by decide) (by decide)).1,
   (notification_log_bounded [ev0] ev0 st0 stFull (by decide) (by decide)).2.2⟩

/-- C4: when `lineId` is present, `updateLineStatus` appends exactly one
notification, placed first, whose message is built from the pre-update display
name and the new status, and whose status field is the new status. -/
theorem updateLineStatus_notifies (env : Env) (lineId : String) (s : LineStatus)
    (st : DashState) (l0 : LTLine)
    (h : st.lines.find? (fun l => l.id = lineId) = some l0) :
    (updateLineStatus env lineId s st).notifications
      = mkItem env lineId (l0.name ++ " status changed to " ++ statusStr s) s
          :: st.notifications.take 19
  ∧ (mkItem env lineId (l0.name ++ " status changed to " ++ statusStr s) s).status = s := by
  refine ⟨?_, rfl⟩
  simp only [updateLineStatus, addNotification, h, Option.map_some', Option.getD_some,
    List.take_succ_cons]

/-- C4 witness: a concrete transition of the seed line `lt-1`. -/
theorem updateLineStatus_notifies_witness :
    st0.lines.find? (fun l => l.id = "lt-1") = some line1
      ∧ (updateLineStatus env0 "lt-1" LineStatus.Fault st0).notifications
          = mkItem env0 "lt-1" (line1.name ++ " status changed to " ++ statusStr LineStatus.Fault)
              LineStatus.Fault :: st0.notifications.take 19 :=
  ⟨by decide, (updateLineStatus_notifies env0 "lt-1" LineStatus.Fault st0 line1 (by decide)).1⟩

/-- C5: the CSV export has one row per line plus the quoted header row
`"Line ID","Name","Status"`; row `i + 1` is the quoted
`(identifier, name, status)` of line `i`; on the three-line seed set the text
is the expected 4 rows (3 newline separators), each field double-quoted. -/
theorem csv_export_spec :
    (∀ lines : List LTLine, (csvRowStrings lines).length = lines.length + 1)
  ∧ (∀ lines : List LTLine,
      (csvRowStrings lines).head? = some "\"Line ID\",\"Name\",\"Status\"")
  ∧ (∀ (lines : List LTLine) (i : Nat),
      (csvRowStrings lines)[i + 1]?
        = (lines[i]?).map (fun l =>
            quoteField l.id ++ "," ++ quoteField l.name ++ "," ++ quoteField (statusStr l.status)))
  ∧ csvOfLines initialLines
      = "\"Line ID\",\"Name\",\"Status\"\n\"lt-1\",\"LT Line - Trivandrum North\",\"Healthy\"\n\"lt-2\",\"LT Line - Kochi Coastal\",\"Healthy\"\n\"lt-3\",\"LT Line - Kozhikode Rural\",\"Shutoff\""
  ∧ (csvOfLines initialLines).toList.count '\n' = 3 := by
  refine ⟨?_, ?_, ?_, rfl, by decide⟩
  · intro lines
    simp [csvRowStrings]
  · intro lines
    rfl
  · intro lines i
    simp only [csvRowStrings, List.map_cons, List.getElem?_cons_succ, List.getElem?_map]
    cases hx : lines[i]? <;> rfl

/-- C7: when the map exists and the line's layers were created,
`toggleLineVisibility` removes the id from the hidden set and attaches the
layers when `visible` is true, adds the id and detaches them when false, and
touches neither lines nor notifications; when the layers were never created it
is a no-op on the whole state. -/
theorem toggleLineVisibility_spec (lineId : String) (visible : Bool) (st : DashState) :
    (st.mapReady = true → lineId ∈ st.layers →
      ((toggleLineVisibility lineId visible st).hidden
          = if visible then st.hidden.erase lineId else insert lineId st.hidden)
        ∧ ((toggleLineVisibility lineId visible st).attached
          = if visible then insert lineId st.attached else st.attached.erase lineId)
        ∧ (toggleLineVisibility lineId visible st).lines = st.lines
        ∧ (toggleLineVisibility lineId visible st).notifications = st.notifications)
  ∧ (lineId ∉ st.layers → toggleLineVisibility lineId visible st = st) := by
  constructor
  · intro hm hl
    cases visible <;> simp [toggleLineVisibility, hm, hl]
  · intro hl
    simp [toggleLineVisibility, hl]

/-- C7 witness: hiding the layered seed line `lt-1`. -/
theorem toggleLineVisibility_spec_witness :
    stLayered.mapReady = true ∧ "lt-1" ∈ stLayered.layers
      ∧ (toggleLineVisibility "lt-1" false stLayered).hidden
          = (if false then stLayered.hidden.erase "lt-1" else insert "lt-1" stLayered.hidden) :=
  ⟨rfl, by decide, ((toggleLineVisibility_spec "lt-1" false stLayered).1 rfl (by decide)).1⟩

/-- The per-line update of `updateLineStatus` never changes the identifier,
display name or coordinates of a line. -/
theorem setStatus_preserves (lineId : String) (s : LineStatus) (l : LTLine) :
    (if l.id = lineId then { l with status := s } else l).id = l.id
  ∧ (if l.id = lineId then { l with status := s } else l).name = l.name
  ∧ (if l.id = lineId then { l with status := s } else l).coords = l.coords := by
  by_cases hid : l.id = lineId <;> simp [hid]

/-- C9: `updateLineStatus` keeps the list length and order, every line's
identifier, display name and coordinate sequence, and leaves every line whose
id differs from `lineId` completely unchanged. -/
theorem updateLineStatus_frame (env : Env) (lineId : String) (s : LineStatus)
    (st : DashState) (i : Nat) :
    (updateLineStatus env lineId s st).lines.length = st.lines.length
  ∧ ((updateLineStatus env lineId s st).lines[i]?).map LTLine.id = (st.lines[i]?).map LTLine.id
  ∧ ((updateLineStatus env lineId s st).lines[i]?).map LTLine.name
      = (st.lines[i]?).map LTLine.name
  ∧ ((updateLineStatus env lineId s st).lines[i]?).map LTLine.coords
      = (st.lines[i]?).map LTLine.coords
  ∧ (∀ l : LTLine, st.lines[i]? = some l → l.id ≠ lineId →
      (updateLineStatus env lineId s st).lines[i]? = some l) := by
  rw [updateLineStatus_lines]
  refine ⟨by simp, ?_, ?_, ?_, ?_⟩
  · rw [List.getElem?_map]
    cases hx : st.lines[i]? with
    | none => rfl
    | some a => simp [(setStatus_preserves lineId s a).1]
  · rw [List.getElem?_map]
    cases hx : st.lines[i]? with
    | none => rfl
    | some a => simp [(setStatus_preserves lineId s a).2.1]
  · rw [List.getElem?_map]
    cases hx : st.lines[i]? with
    | none => rfl
    | some a => simp [(setStatus_preserves lineId s a).2.2]
  · intro l hl hid
    rw [List.getElem?_map, hl]
    simp [hid]

/-- C9 witness: updating a missing id leaves the first seed line in place. -/
theorem updateLineStatus_frame_witness :
    st0.lines[0]? = some line1 ∧ line1.id ≠ "lt-9"
      ∧ (updateLineStatus env0 "lt-9" LineStatus.Fault st0).lines[0]? = some line1 :=
  ⟨by decide, by decide,
   (updateLineStatus_frame env0 "lt-9" LineStatus.Fault st0 0).2.2.2.2 line1
     (by decide) (by decide)⟩

/-- C10: when no line has id `lineId`, `updateLineStatus` leaves the line list
unchanged but still appends exactly one notification using the fallback name
`"Line"` and the requested status. -/
theorem updateLineStatus_missing (env : Env) (lineId : String) (s : LineStatus)
    (st : DashState) (h : ∀ l ∈ st.lines, l.id ≠ lineId) :
    (updateLineStatus env lineId s st).lines = st.lines
  ∧ (updateLineStatus env lineId s st).notifications
      = mkItem env lineId ("Line status changed to " ++ statusStr s) s
          :: st.notifications.take 19 := by
  have hfind : st.lines.find? (fun l => l.id = lineId) = none := by
    simp only [List.find?_eq_none]
    intro x hx
    simp [h x hx]
  constructor
  · rw [updateLineStatus_lines]
    have hfix : ∀ l ∈ st.lines,
        (if l.id = lineId then { l with status := s } else l) = l := by
      intro l hl
      rw [if_neg (h l hl)]
    calc st.lines.map (fun l => if l.id = lineId then { l with status := s } else l)
        = st.lines.map id := List.map_congr_left hfix
      _ = st.lines := List.map_id st.lines
  · simp only [updateLineStatus, addNotification, hfind, Option.map_none', Option.getD_none,
      List.take_succ_cons,
      show ("Line" ++ " status changed to " : String) = "Line status changed to " from rfl]

/-- C10 witness: a concrete call with the unknown id `lt-9`. -/
theorem updateLineStatus_missing_witness :
    (∀ l ∈ st0.lines, l.id ≠ "lt-9")
      ∧ (updateLineStatus env0 "lt-9" LineStatus.Shutoff st0).notifications
          = mkItem env0 "lt-9" ("Line status changed to " ++ statusStr LineStatus.Shutoff)
              LineStatus.Shutoff :: st0.notifications.take 19 :=
  ⟨by decide, (updateLineStatus_missing env0 "lt-9" LineStatus.Shutoff st0 (by decide)).2⟩
